import Mathlib

/-!
Verification development for the clawdis ACP-GW protocol bridge.

The definitions below are a shallow embedding of `src/acp-gw/translator.ts`
and `src/acp-gw/server.ts`. Streamed text is modelled as `List Char`
(a JS string is a sequence of code units; `slice`, `length` and
`startsWith` become `List.drop`, `List.length` and `List.isPrefixOf`).
Observable effects (session-update notifications, deferred
resolution/rejection, Gateway RPC dispatches, cancellation-handle
invocations) are recorded as an ordered `List Action`, one entry per
effectful statement, in the statement order of the source.

The session registry (`src/acp-gw/session.ts`) and the reconnect policy
helpers (`src/web/reconnect.ts`) are imported by the sources but their
files are not part of the provided tree; they are modelled from the
specification where indicated.
-/

namespace Clawdis

/-- ACP StopReason (translator.ts line 32, inlined union type). -/
inductive StopReason where
  | end_turn
  | max_tokens
  | max_turn_requests
  | refusal
  | cancelled
deriving Repr, DecidableEq

/-- Modelled from the spec: `SessionRecord` (§3) of the Session Registry
(`src/acp-gw/session.ts` is imported by `translator.ts` but absent from
the provided sources). `activeRun` stores the run identifier; the spec's
`cancellationHandle` (the TS `abortController` field tested by
`prompt`) is present exactly when `activeRun` is, so invoking it is
recorded in the action trace rather than stored. -/
structure SessionRecord where
  sessionId : String
  sessionKey : String
  cwd : String
  activeRun : Option String
deriving Repr, DecidableEq

/-- One entry of the translator's `pendingPrompts` map
(translator.ts lines 53-63). `sentTextLength` and `sentText` are
optional in the source and absent until the first forwarded delta. -/
structure PendingRequest where
  sessionId : String
  idempotencyKey : String
  sentTextLength : Option Nat
  sentText : Option (List Char)
deriving Repr, DecidableEq

/-- A content block of a chat event's `message.content` array. -/
structure ContentItem where
  type : String
  text : Option (List Char)
deriving Repr, DecidableEq

/-- The `payload.message` object of a chat event (`content` may be absent). -/
structure MessageData where
  content : Option (List ContentItem)
deriving Repr, DecidableEq

/-- The payload of a `chat` event frame as read by `handleChatEvent`
(translator.ts lines 168-173): every field may be absent. -/
structure ChatPayload where
  sessionKey : Option String
  state : Option String
  message : Option MessageData
deriving Repr, DecidableEq

/-- Observable effects of the translator, in source statement order. -/
inductive Action where
  | chunk (sessionId : String) (text : List Char)
  | deletePending (sessionId : String)
  | clearRun (sessionId : String)
  | invokeCancel (sessionId runId : String)
  | registerRun (sessionId runId : String)
  | gatewaySend (sessionId runId : String)
  | gatewayPatch (sessionKey modeId : String)
  | resolve (sessionId : String) (reason : StopReason)
  | reject (sessionId msg : String)
deriving Repr, DecidableEq

/-- Modelled from the spec: `getSession(sessionId)` of the Session
Registry (§4.1), an in-memory table lookup by front-protocol id;
"absence is signaled by returning an empty/undefined result". -/
def getSession (sessions : List SessionRecord) (sessionId : String) : Option SessionRecord :=
  sessions.find? (fun r => r.sessionId == sessionId)

/-- Update the record of one session in place (helper for the modelled
registry mutators; identity on every other record). -/
def updateSession (sessions : List SessionRecord) (sessionId : String)
    (f : SessionRecord → SessionRecord) : List SessionRecord :=
  sessions.map (fun r => if r.sessionId == sessionId then f r else r)

/-- Modelled from the spec: `setActiveRun(sessionId, runId,
cancellationHandle)` (§4.1) stores the run in the session's single
active-run slot. -/
def setActiveRun (sessions : List SessionRecord) (sessionId runId : String) :
    List SessionRecord :=
  updateSession sessions sessionId (fun r => { r with activeRun := some runId })

/-- Modelled from the spec: `clearActiveRun(sessionId)` (§4.1) empties
the session's active-run slot. -/
def clearActiveRun (sessions : List SessionRecord) (sessionId : String) :
    List SessionRecord :=
  updateSession sessions sessionId (fun r => { r with activeRun := none })

/-- Modelled from the spec: `cancelActiveRun(sessionId)` (§4.1) "invokes
the stored cancellation handle, then clears"; idempotent — a no-op on a
session with no active run. The handle invocation is returned as an
`Action.invokeCancel`. -/
def cancelActiveRun (sessions : List SessionRecord) (sessionId : String) :
    List SessionRecord × List Action :=
  match getSession sessions sessionId with
  | none => (sessions, [])
  | some r =>
    match r.activeRun with
    | none => (sessions, [])
    | some runId => (clearActiveRun sessions sessionId, [.invokeCancel sessionId runId])

/-- `Map.get` on the pendingPrompts map (insertion-ordered association list). -/
def mapGet (m : List (String × PendingRequest)) (k : String) : Option PendingRequest :=
  (m.find? (fun e => e.1 == k)).map (fun e => e.2)

/-- `Map.set`: replace in place when the key exists, else append. -/
def mapSet (m : List (String × PendingRequest)) (k : String) (v : PendingRequest) :
    List (String × PendingRequest) :=
  if m.any (fun e => e.1 == k) then m.map (fun e => if e.1 == k then (k, v) else e)
  else m ++ [(k, v)]

/-- `Map.delete`: drop the entry with the given key. -/
def mapDelete (m : List (String × PendingRequest)) (k : String) :
    List (String × PendingRequest) :=
  m.filter (fun e => !(e.1 == k))

/-- The mutable state of `AcpGwAgent` (translator.ts lines 47-63):
the `connected` flag, the session-registry table, and the
`pendingPrompts` map keyed by sessionId. -/
structure AgentState where
  connected : Bool
  sessions : List SessionRecord
  pendingPrompts : List (String × PendingRequest)
deriving Repr, DecidableEq

/-- `findPendingBySessionKey` (translator.ts lines 240-252): scan the
pendingPrompts map for an entry whose session's Gateway key matches. -/
def findPendingBySessionKey (s : AgentState) (sessionKey : String) : Option PendingRequest :=
  (s.pendingPrompts.find? (fun e =>
    ((getSession s.sessions e.1).map (fun r => r.sessionKey)) == some sessionKey)).map
    (fun e => e.2)

/-- `content?.find(c => c.type === "text")?.text ?? ""`
(translator.ts lines 191-192). -/
def fullTextOf (m : MessageData) : List Char :=
  match m.content with
  | none => []
  | some cs =>
    match cs.find? (fun c => c.type == "text") with
    | none => []
    | some c => c.text.getD []

/-- The `state === "delta"` branch of `handleChatEvent`
(translator.ts lines 190-220): diff the cumulative text against what was
already sent, drop retransmitted duplicates, forward only the new
suffix, then record the new cumulative length/text. -/
def handleChatDelta (s : AgentState) (sessionId : String) (m : MessageData) :
    AgentState × List Action :=
  let fullText := fullTextOf m
  match mapGet s.pendingPrompts sessionId with
  | none => (s, [])
  | some actualPending =>
    let sentSoFar := actualPending.sentTextLength.getD 0
    let sentText := actualPending.sentText.getD []
    if sentSoFar < fullText.length then
      let newText := fullText.drop sentSoFar
      if 0 < sentText.length ∧ (sentText.take (min 20 sentText.length)).isPrefixOf newText then
        (s, [])
      else
        let updated := { actualPending with
          sentTextLength := some fullText.length
          sentText := some fullText }
        ({ s with pendingPrompts := mapSet s.pendingPrompts sessionId updated },
         [.chunk sessionId newText])
    else (s, [])

/-- The terminal states of translator.ts line 222. -/
def terminalStates : List String := ["final", "done", "error", "aborted"]

/-- The StopReason mapping of translator.ts lines 229-234. -/
def stopReasonFor (state : String) : StopReason :=
  if state == "final" || state == "done" then .end_turn
  else if state == "aborted" then .cancelled
  else .refusal

/-- The terminal branch of `handleChatEvent` (translator.ts lines
222-237): delete the PendingRequest, clear the active run, then resolve
the deferred with the mapped stop reason — in that statement order. -/
def handleChatTerminal (s : AgentState) (sessionId : String) (state : String) :
    AgentState × List Action :=
  ({ s with
      pendingPrompts := mapDelete s.pendingPrompts sessionId
      sessions := clearActiveRun s.sessions sessionId },
   [.deletePending sessionId, .clearRun sessionId,
    .resolve sessionId (stopReasonFor state)])

/-- Dispatch on the chat event's `state` once the pending prompt is
resolved (translator.ts lines 190-238). A `delta` without `message`
falls through the first guard and — not being terminal — is ignored. -/
def handleChatState (s : AgentState) (sessionId : String) (state : Option String)
    (message : Option MessageData) : AgentState × List Action :=
  match state with
  | none => (s, [])
  | some st =>
    if st == "delta" then
      match message with
      | some m => handleChatDelta s sessionId m
      | none => (s, [])
    else if st ∈ terminalStates then handleChatTerminal s sessionId st
    else (s, [])

/-- `handleChatEvent` (translator.ts lines 167-238): ignore events with
no payload, no sessionKey (the source's `if (!sessionKey) return` is a
JS falsy check, so it drops both an absent key and the empty string), or
no matching pending prompt; otherwise dispatch on the state. -/
def handleChatEvent (s : AgentState) (payload : Option ChatPayload) :
    AgentState × List Action :=
  match payload with
  | none => (s, [])
  | some p =>
    match p.sessionKey with
    | none => (s, [])
    | some sessionKey =>
      if sessionKey == "" then (s, [])
      else
        match findPendingBySessionKey s sessionKey with
        | none => (s, [])
        | some pending => handleChatState s pending.sessionId p.state p.message

/-- `prompt` (translator.ts lines 327-377), up to issuing the Gateway
`chat.send` RPC. An unknown session throws `Session <id> not found`.
Otherwise: if the session has an active prompt (the source tests
`session.abortController`, present exactly while a run is active),
`cancelActiveRun` is invoked first; then the fresh `runId` is registered
via `setActiveRun`, the PendingRequest is recorded (no sent-text state
yet), and the `chat.send` dispatch is issued. Effects are listed in
statement order. -/
def prompt (s : AgentState) (sessionId runId : String) :
    Except String (AgentState × List Action) :=
  match getSession s.sessions sessionId with
  | none => .error ("Session " ++ sessionId ++ " not found")
  | some session =>
    let (sessions1, cancelActs) :=
      if session.activeRun.isSome then cancelActiveRun s.sessions sessionId
      else (s.sessions, [])
    let sessions2 := setActiveRun sessions1 sessionId runId
    let pendingEntry : PendingRequest :=
      { sessionId := sessionId
        idempotencyKey := runId
        sentTextLength := none
        sentText := none }
    .ok ({ s with
            sessions := sessions2
            pendingPrompts := mapSet s.pendingPrompts sessionId pendingEntry },
         cancelActs ++ [.registerRun sessionId runId, .gatewaySend sessionId runId])

/-- The `.catch` handler of `prompt`'s Gateway call (translator.ts lines
371-375): on dispatch failure, delete the PendingRequest, clear the
active-run slot, then reject the returned promise — in that order,
within one handler. -/
def promptDispatchFailure (s : AgentState) (sessionId errMsg : String) :
    AgentState × List Action :=
  ({ s with
      pendingPrompts := mapDelete s.pendingPrompts sessionId
      sessions := clearActiveRun s.sessions sessionId },
   [.deletePending sessionId, .clearRun sessionId, .reject sessionId errMsg])

/-- A sequence of `prompt` calls on one session with no intervening
terminal events, each with its own fresh runId. -/
def promptSeq (s : AgentState) (sessionId : String) : List String → Except String AgentState
  | [] => .ok s
  | runId :: rest =>
    match prompt s sessionId runId with
    | .error e => .error e
    | .ok (s', _) => promptSeq s' sessionId rest

/-- `handleGatewayDisconnect` (translator.ts lines 90-101): mark the
translator disconnected, then for each pending prompt (in map order)
reject its deferred with `Gateway disconnected: <reason>` and clear its
session's active-run slot, and finally clear the pendingPrompts map. -/
def handleGatewayDisconnect (s : AgentState) (reason : String) :
    AgentState × List Action :=
  ({ connected := false
     sessions := s.pendingPrompts.foldl (fun ss e => clearActiveRun ss e.1) s.sessions
     pendingPrompts := [] },
   s.pendingPrompts.foldr
     (fun e acc =>
       Action.reject e.1 ("Gateway disconnected: " ++ reason) :: Action.clearRun e.1 :: acc)
     [])

/-- `setSessionMode` (translator.ts lines 299-322). Unknown session:
throw `Session <id> not found`. Otherwise, when `modeId` is truthy
(present and non-empty), issue the `sessions.patch` Gateway RPC; its
failure is caught and only logged (`patchOk` records the RPC outcome and
does not influence the returned value), and the call returns `{}`. -/
def setSessionMode (s : AgentState) (sessionId : String) (modeId : Option String)
    (patchOk : Bool) : Except String (AgentState × List Action) :=
  match getSession s.sessions sessionId with
  | none => .error ("Session " ++ sessionId ++ " not found")
  | some session =>
    match modeId with
    | none => .ok (s, [])
    | some m =>
      if m == "" then .ok (s, [])
      else .ok (s, [.gatewayPatch session.sessionKey m])

/-- `RECONNECT_DELAY_MS` (server.ts line 148). -/
def RECONNECT_DELAY_MS : Nat := 2000

/-- `MAX_RECONNECT_ATTEMPTS` (server.ts line 149). -/
def MAX_RECONNECT_ATTEMPTS : Nat := 5

/-- The connection host's reconnect state (server.ts lines 164-165). -/
structure ConnState where
  reconnectAttempts : Nat
  reconnectTimer : Option Nat
deriving Repr, DecidableEq

/-- `scheduleReconnect` (server.ts lines 197-217): no-op when a timer is
already pending or the attempt counter has reached
`MAX_RECONNECT_ATTEMPTS`; otherwise increment the counter and schedule a
retry after `RECONNECT_DELAY_MS * attempts`. Returns the new state and
the scheduled delay, if any. -/
def scheduleReconnect (c : ConnState) : ConnState × Option Nat :=
  if c.reconnectTimer.isSome then (c, none)
  else if MAX_RECONNECT_ATTEMPTS ≤ c.reconnectAttempts then (c, none)
  else
    let attempts := c.reconnectAttempts + 1
    let delay := RECONNECT_DELAY_MS * attempts
    ({ reconnectAttempts := attempts, reconnectTimer := some delay }, some delay)

/-- The reconnect policy value object (spec §3; `src/web/reconnect.ts`
is not among the provided sources). -/
structure ReconnectPolicy where
  baseDelayMs : Nat
  maxAttempts : Nat
deriving Repr, DecidableEq

/-- Modelled from the spec: `computeBackoff(policy, attemptNumber) ->
delayMs` of the Reconnection Policy (§4.3; `src/web/reconnect.ts` is
absent from the provided sources), "monotonically non-decreasing in
`attemptNumber` (e.g. linear or exponential growth from
`baseDelayMs`)" — modelled as un-jittered linear growth. -/
def computeBackoff (policy : ReconnectPolicy) (attemptNumber : Nat) : Nat :=
  policy.baseDelayMs * attemptNumber

/-- The retry decision of `monitorWebProvider`'s reconnect loop
(auto-reply.ts lines 663-686): after incrementing the attempt counter,
a retry is scheduled only when not (`maxAttempts > 0` and
`attempts >= maxAttempts`); otherwise the loop exits. -/
def autoReplySchedulesRetry (maxAttempts attempts : Nat) : Bool :=
  if 0 < maxAttempts ∧ maxAttempts ≤ attempts then false else true

/-! ### Helper lemmas about the registry table and the pending map -/

theorem getSession_updateSession (sessions : List SessionRecord) (k k' : String)
    (f : SessionRecord → SessionRecord) (hf : ∀ r, (f r).sessionId = r.sessionId) :
    getSession (updateSession sessions k f) k' =
      (getSession sessions k').map (fun r => if r.sessionId == k then f r else r) := by
  induction sessions with
  | nil => rfl
  | cons a l ih =>
    have hga : (if a.sessionId == k then f a else a).sessionId = a.sessionId := by
      split <;> simp [hf]
    by_cases h : a.sessionId = k'
    · rw [getSession, updateSession, List.map_cons,
        List.find?_cons_of_pos _ (show _ by rw [hga]; simp [h]),
        getSession, List.find?_cons_of_pos _ (by simp [h])]
      rfl
    · rw [getSession, updateSession, List.map_cons,
        List.find?_cons_of_neg _ (show _ by rw [hga]; simp [h]),
        getSession, List.find?_cons_of_neg _ (by simp [h])]
      exact ih

theorem getSession_updateSession_self (sessions : List SessionRecord) (k : String)
    (f : SessionRecord → SessionRecord) (hf : ∀ r, (f r).sessionId = r.sessionId) :
    getSession (updateSession sessions k f) k = (getSession sessions k).map f := by
  rw [getSession_updateSession sessions k k f hf]
  cases h : getSession sessions k with
  | none => rfl
  | some r =>
    have h' : sessions.find? (fun r => r.sessionId == k) = some r := h
    have hr := List.find?_some h'
    have hrk : r.sessionId = k := by simpa using hr
    simp [hrk]

theorem getSession_clearActiveRun_self (sessions : List SessionRecord) (k : String) :
    getSession (clearActiveRun sessions k) k =
      (getSession sessions k).map (fun r => { r with activeRun := none }) :=
  getSession_updateSession_self sessions k _ (fun _ => rfl)

theorem getSession_clearActiveRun_other (sessions : List SessionRecord) (k k' : String)
    (h : k' ≠ k) :
    getSession (clearActiveRun sessions k) k' = getSession sessions k' := by
  rw [clearActiveRun,
    getSession_updateSession sessions k k' (fun r => { r with activeRun := none })
      (fun _ => rfl)]
  cases hs : getSession sessions k' with
  | none => rfl
  | some r =>
    have hs' : sessions.find? (fun r => r.sessionId == k') = some r := hs
    have hr := List.find?_some hs'
    have hrk : r.sessionId = k' := by simpa using hr
    simp [hrk, h]

theorem getSession_setActiveRun_self (sessions : List SessionRecord) (k runId : String) :
    getSession (setActiveRun sessions k runId) k =
      (getSession sessions k).map (fun r => { r with activeRun := some runId }) :=
  getSession_updateSession_self sessions k _ (fun _ => rfl)

theorem mapGet_mapDelete_self (m : List (String × PendingRequest)) (k : String) :
    mapGet (mapDelete m k) k = none := by
  have h : (mapDelete m k).find? (fun e => e.1 == k) = none := by
    rw [mapDelete, List.find?_filter]
    exact List.find?_eq_none.mpr (by intro x _hx; simp)
  simp [mapGet, h]

theorem mapGet_mapSet_self (m : List (String × PendingRequest)) (k : String)
    (v : PendingRequest) : mapGet (mapSet m k v) k = some v := by
  rw [mapGet, mapSet]
  split
  case isTrue hany =>
    rw [List.find?_map]
    have hpg : ((fun e : String × PendingRequest => e.1 == k) ∘
        (fun e => if e.1 == k then (k, v) else e)) =
        (fun e : String × PendingRequest => e.1 == k) := by
      funext e
      by_cases h : e.1 = k <;> simp [h]
    rw [hpg]
    have hsome : (m.find? (fun e => e.1 == k)).isSome := by
      rw [List.find?_isSome]
      simpa [List.any_eq_true] using hany
    obtain ⟨e0, he0⟩ := Option.isSome_iff_exists.mp hsome
    have hp := List.find?_some he0
    rw [he0]
    simp only [] at hp
    simp [show e0.1 = k by simpa using hp]
  case isFalse hany =>
    rw [List.find?_append]
    have hnone : m.find? (fun e => e.1 == k) = none := by
      rw [List.find?_eq_none]
      intro x hx
      intro hpx
      exact hany (List.any_eq_true.mpr ⟨x, hx, by simpa using hpx⟩)
    simp [hnone]

/-- The session's active-run slot is empty (vacuously, if the session is
absent from the table). -/
def runSlotEmpty (sessions : List SessionRecord) (k : String) : Prop :=
  ∀ r, getSession sessions k = some r → r.activeRun = none

theorem runSlotEmpty_clearActiveRun_self (sessions : List SessionRecord) (k : String) :
    runSlotEmpty (clearActiveRun sessions k) k := by
  intro r hr
  rw [getSession_clearActiveRun_self] at hr
  cases h : getSession sessions k with
  | none => rw [h] at hr; cases hr
  | some r0 =>
    rw [h] at hr
    have : ({ r0 with activeRun := none } : SessionRecord) = r := by
      simpa using hr
    rw [← this]

theorem runSlotEmpty_clearActiveRun_preserve (sessions : List SessionRecord)
    (k k' : String) (h : runSlotEmpty sessions k) :
    runSlotEmpty (clearActiveRun sessions k') k := by
  by_cases hk : k = k'
  · subst hk
    exact runSlotEmpty_clearActiveRun_self sessions k
  · intro r hr
    rw [getSession_clearActiveRun_other sessions k' k hk] at hr
    exact h r hr

theorem runSlotEmpty_foldl_preserve (m : List (String × PendingRequest))
    (sessions : List SessionRecord) (k : String) (h : runSlotEmpty sessions k) :
    runSlotEmpty (m.foldl (fun ss e => clearActiveRun ss e.1) sessions) k := by
  induction m generalizing sessions with
  | nil => exact h
  | cons a l ih =>
    exact ih (clearActiveRun sessions a.1)
      (runSlotEmpty_clearActiveRun_preserve sessions k a.1 h)

theorem runSlotEmpty_foldl_mem (m : List (String × PendingRequest))
    (sessions : List SessionRecord) (e : String × PendingRequest) (he : e ∈ m) :
    runSlotEmpty (m.foldl (fun ss e => clearActiveRun ss e.1) sessions) e.1 := by
  induction m generalizing sessions with
  | nil => cases he
  | cons a l ih =>
    rcases List.mem_cons.mp he with rfl | hmem
    · exact runSlotEmpty_foldl_preserve l (clearActiveRun sessions e.1) e.1
        (runSlotEmpty_clearActiveRun_self sessions e.1)
    · exact ih (clearActiveRun sessions a.1) hmem

/-! ### Reduction lemmas for the event handler -/

theorem handleChatEvent_found (s : AgentState) (sk st : String) (msg : Option MessageData)
    (pending : PendingRequest) (hne : sk ≠ "")
    (h : findPendingBySessionKey s sk = some pending) :
    handleChatEvent s (some ⟨some sk, some st, msg⟩) =
      handleChatState s pending.sessionId (some st) msg := by
  have hrfl : handleChatEvent s (some ⟨some sk, some st, msg⟩) =
      (if sk == "" then (s, [])
       else
        match findPendingBySessionKey s sk with
        | none => (s, [])
        | some pending => handleChatState s pending.sessionId (some st) msg) := rfl
  rw [hrfl, if_neg (by simpa using hne), h]

theorem handleChatEvent_notFound (s : AgentState) (sk : String) (st : Option String)
    (msg : Option MessageData) (hne : sk ≠ "")
    (h : findPendingBySessionKey s sk = none) :
    handleChatEvent s (some ⟨some sk, st, msg⟩) = (s, []) := by
  have hrfl : handleChatEvent s (some ⟨some sk, st, msg⟩) =
      (if sk == "" then (s, [])
       else
        match findPendingBySessionKey s sk with
        | none => (s, [])
        | some pending => handleChatState s pending.sessionId st msg) := rfl
  rw [hrfl, if_neg (by simpa using hne), h]

/-- The dedup bookkeeping update of the delta branch (translator.ts
lines 208-209): record the full cumulative length and text as sent. -/
def advancePending (ap : PendingRequest) (fullText : List Char) : PendingRequest :=
  { ap with sentTextLength := some fullText.length, sentText := some fullText }

theorem handleChatDelta_emit (s : AgentState) (sid : String) (m : MessageData)
    (ap : PendingRequest) (hget : mapGet s.pendingPrompts sid = some ap)
    (hlen : ap.sentTextLength.getD 0 < (fullTextOf m).length)
    (hdup : ¬(0 < (ap.sentText.getD []).length ∧
      ((ap.sentText.getD []).take (min 20 (ap.sentText.getD []).length)).isPrefixOf
        ((fullTextOf m).drop (ap.sentTextLength.getD 0)) = true)) :
    handleChatDelta s sid m =
      ({ s with pendingPrompts :=
          mapSet s.pendingPrompts sid (advancePending ap (fullTextOf m)) },
       [.chunk sid ((fullTextOf m).drop (ap.sentTextLength.getD 0))]) := by
  simp only [handleChatDelta, hget]
  rw [if_pos hlen, if_neg hdup]
  rfl

theorem handleChatDelta_dup (s : AgentState) (sid : String) (m : MessageData)
    (ap : PendingRequest) (hget : mapGet s.pendingPrompts sid = some ap)
    (hlen : ap.sentTextLength.getD 0 < (fullTextOf m).length)
    (hdup : 0 < (ap.sentText.getD []).length ∧
      ((ap.sentText.getD []).take (min 20 (ap.sentText.getD []).length)).isPrefixOf
        ((fullTextOf m).drop (ap.sentTextLength.getD 0)) = true) :
    handleChatDelta s sid m = (s, []) := by
  simp only [handleChatDelta, hget]
  rw [if_pos hlen, if_pos hdup]

/-- Run a list of event payloads through `handleChatEvent`, threading the
state and concatenating the emitted actions in order. -/
def runEvents (s : AgentState) : List (Option ChatPayload) → AgentState × List Action
  | [] => (s, [])
  | e :: es =>
    let step := handleChatEvent s e
    let rest := runEvents step.1 es
    (rest.1, step.2 ++ rest.2)

/-- A cumulative-text delta event payload carrying one text block. -/
def deltaEvent (sk : String) (txt : List Char) : Option ChatPayload :=
  some ⟨some sk, some "delta", some ⟨some [⟨"text", some txt⟩]⟩⟩

theorem take_min_length (l : List Char) (n : Nat) :
    l.take (min n l.length) = l.take n := by
  rcases Nat.le_total n l.length with h | h
  · rw [Nat.min_eq_left h]
  · rw [Nat.min_eq_right h, List.take_length, List.take_of_length_le h]

theorem prompt_eq_noActive (s : AgentState) (sid runId : String) (sess : SessionRecord)
    (h : getSession s.sessions sid = some sess) (hA : sess.activeRun = none) :
    prompt s sid runId = .ok
      ({ s with sessions := setActiveRun s.sessions sid runId,
                pendingPrompts := mapSet s.pendingPrompts sid ⟨sid, runId, none, none⟩ },
       [.registerRun sid runId, .gatewaySend sid runId]) := by
  unfold prompt
  rw [h]
  dsimp only
  rw [hA]
  rfl

theorem prompt_eq_active (s : AgentState) (sid runId : String) (sess : SessionRecord)
    (r : String) (h : getSession s.sessions sid = some sess) (hA : sess.activeRun = some r) :
    prompt s sid runId = .ok
      ({ s with sessions := setActiveRun (clearActiveRun s.sessions sid) sid runId,
                pendingPrompts := mapSet s.pendingPrompts sid ⟨sid, runId, none, none⟩ },
       [.invokeCancel sid r, .registerRun sid runId, .gatewaySend sid runId]) := by
  unfold prompt cancelActiveRun
  rw [h]
  dsimp only
  rw [hA]
  rfl

theorem prompt_ok_activeRun (s : AgentState) (sid runId : String) (sess : SessionRecord)
    (h : getSession s.sessions sid = some sess) :
    ∃ s' acts, prompt s sid runId = .ok (s', acts) ∧
      ∃ rec, getSession s'.sessions sid = some rec ∧ rec.activeRun = some runId := by
  cases hA : sess.activeRun with
  | none =>
    refine ⟨_, _, prompt_eq_noActive s sid runId sess h hA, ?_⟩
    refine ⟨{ sess with activeRun := some runId }, ?_, rfl⟩
    rw [getSession_setActiveRun_self, h]
    rfl
  | some r =>
    refine ⟨_, _, prompt_eq_active s sid runId sess r h hA, ?_⟩
    refine ⟨{ sess with activeRun := some runId }, ?_, rfl⟩
    rw [getSession_setActiveRun_self, getSession_clearActiveRun_self, h]
    rfl

theorem promptSeq_last_run (runIds : List String) (s : AgentState) (sid : String)
    (sess : SessionRecord) (r : String) (h : getSession s.sessions sid = some sess)
    (hlast : runIds.getLast? = some r) :
    ∃ s', promptSeq s sid runIds = .ok s' ∧
      ∃ rec, getSession s'.sessions sid = some rec ∧ rec.activeRun = some r := by
  induction runIds generalizing s sess with
  | nil => cases hlast
  | cons a rest ih =>
    obtain ⟨s1, acts, heq, rec1, hget1, hrun1⟩ := prompt_ok_activeRun s sid a sess h
    have hseq : promptSeq s sid (a :: rest) = promptSeq s1 sid rest := by
      conv_lhs => rw [promptSeq]
      rw [heq]
    cases rest with
    | nil =>
      have hra : r = a := by
        simp [List.getLast?] at hlast
        exact hlast.symm
      subst hra
      exact ⟨s1, by rw [hseq]; rfl, rec1, hget1, hrun1⟩
    | cons b bs =>
      have hlast' : (b :: bs).getLast? = some r := by
        simpa [List.getLast?_cons_cons] using hlast
      obtain ⟨s', hs', rec, hget, hrun⟩ := ih s1 rec1 hget1 hlast'
      exact ⟨s', by rw [hseq]; exact hs', rec, hget, hrun⟩

theorem disconnect_reject_mem (m : List (String × PendingRequest)) (reason : String)
    (e : String × PendingRequest) (he : e ∈ m) :
    Action.reject e.1 ("Gateway disconnected: " ++ reason) ∈
      m.foldr (fun e acc =>
        Action.reject e.1 ("Gateway disconnected: " ++ reason) ::
          Action.clearRun e.1 :: acc) [] := by
  induction m with
  | nil => cases he
  | cons a l ih =>
    rcases List.mem_cons.mp he with rfl | hmem
    · exact List.mem_cons_self _ _
    · simp only [List.foldr_cons]
      exact List.mem_cons_of_mem _ (List.mem_cons_of_mem _ (ih hmem))

/-! ### Concrete fixtures used by the witnesses -/

/-- A demo session with an in-flight run. -/
def demoSession : SessionRecord :=
  { sessionId := "s1", sessionKey := "k1", cwd := "/tmp/x", activeRun := some "r1" }

/-- The pending prompt for the demo session, as recorded by `prompt`. -/
def demoPending : PendingRequest :=
  { sessionId := "s1", idempotencyKey := "r1", sentTextLength := none, sentText := none }

/-- Translator state with one session holding one pending prompt. -/
def demoState : AgentState :=
  { connected := true, sessions := [demoSession], pendingPrompts := [("s1", demoPending)] }

/-- Cumulative payload texts of lengths 5, 12 and 20 for the streaming
simulation of the spec (§8, streaming monotonicity). -/
def t1 : List Char := "Hi A.".toList

/-- The 12-character cumulative text extending `t1`. -/
def t2 : List Char := "Hi A. Go on.".toList

/-- The 20-character cumulative text extending `t2`. -/
def t4 : List Char := "Hi A. Go on. More &&".toList

/-! ### Claims -/

/-- C1. For every run, a delta event carrying a non-empty (non-falsy)
session key and cumulative text whose length exceeds the stored
sent-text length (and which is not caught by the duplicate guard) makes
the Translator forward exactly the suffix beyond the stored length and
update the stored length/text; and the simulated cumulative sequence of
lengths 5, 12, 12, 20 forwards chunks of lengths 5, 7, (duplicate
dropped), 8, whose concatenation is exactly the final cumulative text —
nothing is re-sent. -/
theorem claim1_delta_suffix_forwarding :
    (∀ (s : AgentState) (sk : String) (m : MessageData) (pending ap : PendingRequest),
      sk ≠ "" →
      findPendingBySessionKey s sk = some pending →
      mapGet s.pendingPrompts pending.sessionId = some ap →
      ap.sentTextLength.getD 0 < (fullTextOf m).length →
      ¬(0 < (ap.sentText.getD []).length ∧
        ((ap.sentText.getD []).take (min 20 (ap.sentText.getD []).length)).isPrefixOf
          ((fullTextOf m).drop (ap.sentTextLength.getD 0)) = true) →
      handleChatEvent s (some ⟨some sk, some "delta", some m⟩) =
        ({ s with pendingPrompts :=
            mapSet s.pendingPrompts pending.sessionId (advancePending ap (fullTextOf m)) },
         [.chunk pending.sessionId ((fullTextOf m).drop (ap.sentTextLength.getD 0))])) ∧
    (runEvents demoState [deltaEvent "k1" t1, deltaEvent "k1" t2, deltaEvent "k1" t2,
        deltaEvent "k1" t4]).2 =
      [.chunk "s1" t1, .chunk "s1" (t2.drop 5), .chunk "s1" (t4.drop 12)] ∧
    (t1.length = 5 ∧ t2.length = 12 ∧ t4.length = 20 ∧
      (t2.drop 5).length = 7 ∧ (t4.drop 12).length = 8) ∧
    t1 ++ t2.drop 5 ++ t4.drop 12 = t4 := by
  refine ⟨?_, by decide, by decide, by decide⟩
  intro s sk m pending ap hne hfind hget hlen hdup
  rw [handleChatEvent_found s sk "delta" (some m) pending hne hfind]
  exact handleChatDelta_emit s pending.sessionId m ap hget hlen hdup

/-- Witness for C1: the first demo delta event forwards the whole
5-character text as one chunk. -/
theorem claim1_witness :
    (handleChatEvent demoState (deltaEvent "k1" t1)).2 = [Action.chunk "s1" t1] := by
  have h := claim1_delta_suffix_forwarding.1 demoState "k1" ⟨some [⟨"text", some t1⟩]⟩
    demoPending demoPending (by decide) (by decide) (by decide) (by decide) (by decide)
  rw [show deltaEvent "k1" t1 =
      some (⟨some "k1", some "delta", some ⟨some [⟨"text", some t1⟩]⟩⟩ : ChatPayload) from rfl,
    h]
  rfl

/-- C2. For every run reaching a terminal chat-state event (with a
non-empty, non-falsy session key), the Translator removes the
PendingRequest and clears the session's active-run slot before resolving
the deferred (visible in the action order: delete, clear, then resolve),
and resolves with end_turn for final/done, cancelled for aborted,
refusal for error. -/
theorem claim2_terminal_cleanup :
    (∀ (s : AgentState) (sk st : String) (msg : Option MessageData)
      (pending : PendingRequest),
      sk ≠ "" →
      findPendingBySessionKey s sk = some pending →
      st ∈ terminalStates →
      handleChatEvent s (some ⟨some sk, some st, msg⟩) =
        ({ s with pendingPrompts := mapDelete s.pendingPrompts pending.sessionId,
                  sessions := clearActiveRun s.sessions pending.sessionId },
         [.deletePending pending.sessionId, .clearRun pending.sessionId,
          .resolve pending.sessionId (stopReasonFor st)]) ∧
      mapGet (mapDelete s.pendingPrompts pending.sessionId) pending.sessionId = none ∧
      runSlotEmpty (clearActiveRun s.sessions pending.sessionId) pending.sessionId) ∧
    stopReasonFor "final" = .end_turn ∧ stopReasonFor "done" = .end_turn ∧
    stopReasonFor "aborted" = .cancelled ∧ stopReasonFor "error" = .refusal := by
  refine ⟨?_, by decide, by decide, by decide, by decide⟩
  intro s sk st msg pending hne hfind hst
  refine ⟨?_, mapGet_mapDelete_self _ _, runSlotEmpty_clearActiveRun_self _ _⟩
  rw [handleChatEvent_found s sk st msg pending hne hfind]
  have hst' : st = "final" ∨ st = "done" ∨ st = "error" ∨ st = "aborted" := by
    simpa [terminalStates] using hst
  rcases hst' with rfl | rfl | rfl | rfl <;> rfl

/-- Witness for C2: a `final` event on the demo state removes the
pending prompt, clears the run slot, and resolves with end_turn. -/
theorem claim2_witness :
    handleChatEvent demoState (some ⟨some "k1", some "final", none⟩) =
      ({ demoState with pendingPrompts := mapDelete demoState.pendingPrompts "s1",
                        sessions := clearActiveRun demoState.sessions "s1" },
       [.deletePending "s1", .clearRun "s1", .resolve "s1" .end_turn]) := by
  have h := (claim2_terminal_cleanup.1 demoState "k1" "final" none demoPending
    (by decide) (by decide) (by decide)).1
  rw [h]
  rfl

/-- C5. A delta event whose new suffix begins with the first 20
characters of the (non-empty) previously sent text is dropped entirely:
no notification is emitted and the state is unchanged. -/
theorem claim5_duplicate_drop :
    ∀ (s : AgentState) (sk : String) (m : MessageData) (pending ap : PendingRequest)
      (st : List Char),
      findPendingBySessionKey s sk = some pending →
      mapGet s.pendingPrompts pending.sessionId = some ap →
      ap.sentText = some st → st ≠ [] →
      ap.sentTextLength.getD 0 < (fullTextOf m).length →
      (st.take 20).isPrefixOf ((fullTextOf m).drop (ap.sentTextLength.getD 0)) = true →
      handleChatEvent s (some ⟨some sk, some "delta", some m⟩) = (s, []) := by
  intro s sk m pending ap st hfind hget hsent hne hlen hdup
  by_cases hsk : sk = ""
  · subst hsk
    rfl
  · rw [handleChatEvent_found s sk "delta" (some m) pending hsk hfind]
    have hguard : 0 < (ap.sentText.getD []).length ∧
        ((ap.sentText.getD []).take (min 20 (ap.sentText.getD []).length)).isPrefixOf
          ((fullTextOf m).drop (ap.sentTextLength.getD 0)) = true := by
      rw [hsent]
      refine ⟨List.length_pos.mpr hne, ?_⟩
      rw [Option.getD_some, take_min_length]
      exact hdup
    exact handleChatDelta_dup s pending.sessionId m ap hget hlen hguard

/-- Witness for C5: after 5 characters were sent, a retransmission whose
new suffix repeats the sent text is dropped with no state change. -/
theorem claim5_witness :
    handleChatEvent
      ({ demoState with pendingPrompts := [("s1", advancePending demoPending t1)] })
      (deltaEvent "k1" (t1 ++ t1)) =
      ({ demoState with pendingPrompts := [("s1", advancePending demoPending t1)] }, []) := by
  have h := claim5_duplicate_drop
    ({ demoState with pendingPrompts := [("s1", advancePending demoPending t1)] })
    "k1" ⟨some [⟨"text", some (t1 ++ t1)⟩]⟩ (advancePending demoPending t1)
    (advancePending demoPending t1) t1
    (by decide) (by decide) (by decide) (by decide) (by decide) (by decide)
  exact h

/-- C9. The first delta event carrying non-empty cumulative text for a
run (under a non-empty, non-falsy session key) is always forwarded in
full: with no sent-text state recorded yet, the duplicate guard cannot
fire and the forwarded chunk is the entire cumulative text. -/
theorem claim9_first_delta_full :
    ∀ (s : AgentState) (sk : String) (m : MessageData) (pending ap : PendingRequest),
      sk ≠ "" →
      findPendingBySessionKey s sk = some pending →
      mapGet s.pendingPrompts pending.sessionId = some ap →
      ap.sentTextLength = none → ap.sentText = none →
      fullTextOf m ≠ [] →
      handleChatEvent s (some ⟨some sk, some "delta", some m⟩) =
        ({ s with pendingPrompts :=
            mapSet s.pendingPrompts pending.sessionId (advancePending ap (fullTextOf m)) },
         [.chunk pending.sessionId (fullTextOf m)]) := by
  intro s sk m pending ap hke hfind hget hlen0 hsent0 hne
  rw [handleChatEvent_found s sk "delta" (some m) pending hke hfind]
  have hlen : ap.sentTextLength.getD 0 < (fullTextOf m).length := by
    rw [hlen0]
    exact List.length_pos.mpr hne
  have hdup : ¬(0 < (ap.sentText.getD []).length ∧
      ((ap.sentText.getD []).take (min 20 (ap.sentText.getD []).length)).isPrefixOf
        ((fullTextOf m).drop (ap.sentTextLength.getD 0)) = true) := by
    rw [hsent0]
    intro hc
    exact absurd hc.1 (by simp)
  have h2 : handleChatState s pending.sessionId (some "delta") (some m) =
      handleChatDelta s pending.sessionId m := rfl
  have h := handleChatDelta_emit s pending.sessionId m ap hget hlen hdup
  rw [h2, h, hlen0]
  rfl

/-- Witness for C9: the demo state has no sent-text recorded, so the
first delta forwards the whole cumulative text. -/
theorem claim9_witness :
    handleChatEvent demoState (deltaEvent "k1" t2) =
      ({ demoState with
          pendingPrompts := mapSet demoState.pendingPrompts "s1" (advancePending demoPending t2) },
       [.chunk "s1" t2]) := by
  have h := claim9_first_delta_full demoState "k1" ⟨some [⟨"text", some t2⟩]⟩
    demoPending demoPending (by decide) (by decide) (by decide) (by decide) (by decide)
    (by decide)
  exact h

/-- C3. `prompt` fails with SessionNotFound for an unknown session; on a
session with an active run, the cancellation is invoked before the fresh
runId is registered (action order: invokeCancel, registerRun); and after
any non-empty sequence of prompts without terminal events exactly one
run — the last one — is registered as active. -/
theorem claim3_prompt_supersede :
    (∀ (s : AgentState) (sid runId : String),
      getSession s.sessions sid = none →
      prompt s sid runId = .error ("Session " ++ sid ++ " not found")) ∧
    (∀ (s : AgentState) (sid runId : String) (sess : SessionRecord) (r : String),
      getSession s.sessions sid = some sess → sess.activeRun = some r →
      prompt s sid runId = .ok
        ({ s with
            sessions := setActiveRun (clearActiveRun s.sessions sid) sid runId,
            pendingPrompts := mapSet s.pendingPrompts sid ⟨sid, runId, none, none⟩ },
         [.invokeCancel sid r, .registerRun sid runId, .gatewaySend sid runId])) ∧
    (∀ (s : AgentState) (sid : String) (sess : SessionRecord) (runIds : List String)
      (r : String),
      getSession s.sessions sid = some sess → runIds.getLast? = some r →
      ∃ s', promptSeq s sid runIds = .ok s' ∧
        ∃ rec, getSession s'.sessions sid = some rec ∧ rec.activeRun = some r) := by
  refine ⟨?_, ?_, ?_⟩
  · intro s sid runId h
    unfold prompt
    rw [h]
  · intro s sid runId sess r h hA
    exact prompt_eq_active s sid runId sess r h hA
  · intro s sid sess runIds r h hlast
    exact promptSeq_last_run runIds s sid sess r h hlast

/-- Witness for C3: prompting the busy demo session cancels run r1
before registering r2, and a two-prompt sequence leaves r3 active. -/
theorem claim3_witness :
    prompt demoState "s1" "r2" = .ok
      ({ demoState with
          sessions := setActiveRun (clearActiveRun demoState.sessions "s1") "s1" "r2",
          pendingPrompts := mapSet demoState.pendingPrompts "s1" ⟨"s1", "r2", none, none⟩ },
       [.invokeCancel "s1" "r1", .registerRun "s1" "r2", .gatewaySend "s1" "r2"]) ∧
    (∃ s', promptSeq demoState "s1" ["r2", "r3"] = .ok s' ∧
      ∃ rec, getSession s'.sessions "s1" = some rec ∧ rec.activeRun = some "r3") := by
  constructor
  · exact claim3_prompt_supersede.2.1 demoState "s1" "r2" demoSession "r1"
      (by decide) (by decide)
  · exact claim3_prompt_supersede.2.2 demoState "s1" demoSession ["r2", "r3"] "r3"
      (by decide) (by decide)

/-- A second demo session with its own pending prompt. -/
def demoSessionB : SessionRecord :=
  { sessionId := "s2", sessionKey := "k2", cwd := "/tmp/y", activeRun := some "rB" }

/-- The pending prompt of the second demo session. -/
def demoPendingB : PendingRequest :=
  { sessionId := "s2", idempotencyKey := "rB", sentTextLength := none, sentText := none }

/-- Translator state with two sessions, each holding a pending prompt. -/
def demoState2 : AgentState :=
  { connected := true
    sessions := [demoSession, demoSessionB]
    pendingPrompts := [("s1", demoPending), ("s2", demoPendingB)] }

/-- C4. One `handleGatewayDisconnect(reason)` call rejects every pending
deferred with a disconnect error carrying the reason, clears every
affected session's active-run slot, and empties the pending table. -/
theorem claim4_disconnect_rejects_all :
    ∀ (s : AgentState) (reason : String),
      (handleGatewayDisconnect s reason).1.pendingPrompts = [] ∧
      (handleGatewayDisconnect s reason).1.connected = false ∧
      ∀ e ∈ s.pendingPrompts,
        Action.reject e.1 ("Gateway disconnected: " ++ reason) ∈
          (handleGatewayDisconnect s reason).2 ∧
        runSlotEmpty (handleGatewayDisconnect s reason).1.sessions e.1 := by
  intro s reason
  refine ⟨rfl, rfl, ?_⟩
  intro e he
  exact ⟨disconnect_reject_mem s.pendingPrompts reason e he,
    runSlotEmpty_foldl_mem s.pendingPrompts s.sessions e he⟩

/-- Witness for C4: disconnecting with two pending prompts empties the
table and rejects both sessions' deferreds. -/
theorem claim4_witness :
    (handleGatewayDisconnect demoState2 "socket closed").1.pendingPrompts = [] ∧
    Action.reject "s1" ("Gateway disconnected: " ++ "socket closed") ∈
      (handleGatewayDisconnect demoState2 "socket closed").2 ∧
    Action.reject "s2" ("Gateway disconnected: " ++ "socket closed") ∈
      (handleGatewayDisconnect demoState2 "socket closed").2 := by
  refine ⟨(claim4_disconnect_rejects_all demoState2 "socket closed").1, ?_, ?_⟩
  · exact (((claim4_disconnect_rejects_all demoState2 "socket closed").2.2)
      ("s1", demoPending) (by decide)).1
  · exact (((claim4_disconnect_rejects_all demoState2 "socket closed").2.2)
      ("s2", demoPendingB) (by decide)).1

/-- C6. When the `chat.send` dispatch fails, the catch handler releases
the PendingRequest entry and the session's active-run slot and rejects
the promise, all in the same handler (one atomic action list, with the
releases before the rejection). -/
theorem claim6_dispatch_failure_release :
    ∀ (s : AgentState) (sid errMsg : String),
      promptDispatchFailure s sid errMsg =
        ({ s with
            pendingPrompts := mapDelete s.pendingPrompts sid,
            sessions := clearActiveRun s.sessions sid },
         [.deletePending sid, .clearRun sid, .reject sid errMsg]) ∧
      mapGet (promptDispatchFailure s sid errMsg).1.pendingPrompts sid = none ∧
      runSlotEmpty (promptDispatchFailure s sid errMsg).1.sessions sid := by
  intro s sid errMsg
  exact ⟨rfl, mapGet_mapDelete_self _ _, runSlotEmpty_clearActiveRun_self _ _⟩

/-- Witness for C6: the dispatch-failure handler on the demo state. -/
theorem claim6_witness :
    promptDispatchFailure demoState "s1" "dispatch failed" =
      ({ demoState with
          pendingPrompts := mapDelete demoState.pendingPrompts "s1",
          sessions := clearActiveRun demoState.sessions "s1" },
       [.deletePending "s1", .clearRun "s1", .reject "s1" "dispatch failed"]) :=
  (claim6_dispatch_failure_release demoState "s1" "dispatch failed").1

/-- C7. The reconnect delay is monotonically non-decreasing in the
attempt number up to maxAttempts (both for the modelled
`computeBackoff` and for server.ts's linear `RECONNECT_DELAY_MS *
attempts`), and neither reconnect loop schedules a retry once the
attempt counter has reached its positive maxAttempts. -/
theorem claim7_backoff_monotone :
    (∀ (p : ReconnectPolicy) (m n : Nat), m ≤ n →
      computeBackoff p m ≤ computeBackoff p n) ∧
    (∀ c : ConnState, c.reconnectTimer = none →
      c.reconnectAttempts + 1 ≤ MAX_RECONNECT_ATTEMPTS →
      (scheduleReconnect c).2 = some (RECONNECT_DELAY_MS * (c.reconnectAttempts + 1))) ∧
    (∀ m n : Nat, m ≤ n → RECONNECT_DELAY_MS * m ≤ RECONNECT_DELAY_MS * n) ∧
    (∀ c : ConnState, MAX_RECONNECT_ATTEMPTS ≤ c.reconnectAttempts →
      (scheduleReconnect c).2 = none) ∧
    (∀ maxAttempts attempts : Nat, 0 < maxAttempts → maxAttempts ≤ attempts →
      autoReplySchedulesRetry maxAttempts attempts = false) := by
  refine ⟨?_, ?_, ?_, ?_, ?_⟩
  · intro p m n h
    exact Nat.mul_le_mul_left _ h
  · intro c ht hle
    rw [scheduleReconnect, ht]
    have hlt : ¬ MAX_RECONNECT_ATTEMPTS ≤ c.reconnectAttempts := by
      unfold MAX_RECONNECT_ATTEMPTS at hle ⊢
      omega
    simp [hlt]
  · intro m n h
    exact Nat.mul_le_mul_left _ h
  · intro c h
    rw [scheduleReconnect]
    by_cases ht : c.reconnectTimer.isSome
    · simp [ht]
    · simp [ht, h]
  · intro maxA att h1 h2
    simp [autoReplySchedulesRetry, h1, h2]

/-- Witness for C7: the first retry is scheduled after 2000 ms, a sixth
retry is never scheduled, and the modelled backoff grows. -/
theorem claim7_witness :
    (scheduleReconnect ⟨0, none⟩).2 = some 2000 ∧
    (scheduleReconnect ⟨5, none⟩).2 = none ∧
    computeBackoff ⟨2000, 5⟩ 1 ≤ computeBackoff ⟨2000, 5⟩ 3 ∧
    autoReplySchedulesRetry 5 5 = false := by
  refine ⟨?_, ?_, ?_, ?_⟩
  · have h := claim7_backoff_monotone.2.1 ⟨0, none⟩ rfl (by decide)
    simpa using h
  · exact claim7_backoff_monotone.2.2.2.1 ⟨5, none⟩ (by decide)
  · exact claim7_backoff_monotone.1 ⟨2000, 5⟩ 1 3 (by decide)
  · exact claim7_backoff_monotone.2.2.2.2 5 5 (by decide) (by decide)

/-- C8. `setSessionMode` fails with SessionNotFound for an unknown
session; for a known session it resolves successfully whether or not the
Gateway patch RPC succeeds — the outcome is identical for a succeeding
and a failing patch. -/
theorem claim8_set_mode_best_effort :
    (∀ (s : AgentState) (sid : String) (modeId : Option String) (patchOk : Bool),
      getSession s.sessions sid = none →
      setSessionMode s sid modeId patchOk = .error ("Session " ++ sid ++ " not found")) ∧
    (∀ (s : AgentState) (sid : String) (modeId : Option String) (sess : SessionRecord),
      getSession s.sessions sid = some sess →
      (∀ patchOk : Bool, ∃ out, setSessionMode s sid modeId patchOk = .ok out) ∧
      setSessionMode s sid modeId true = setSessionMode s sid modeId false) := by
  constructor
  · intro s sid modeId patchOk h
    unfold setSessionMode
    rw [h]
  · intro s sid modeId sess h
    constructor
    · intro patchOk
      unfold setSessionMode
      rw [h]
      dsimp only
      cases modeId with
      | none => exact ⟨_, rfl⟩
      | some m =>
        dsimp only
        by_cases hm : (m == "") = true
        · rw [if_pos hm]; exact ⟨_, rfl⟩
        · rw [if_neg hm]; exact ⟨_, rfl⟩
    · rfl

/-- Witness for C8: mode changes on the demo session succeed for both a
succeeding and a failing patch RPC; an unknown session errors. -/
theorem claim8_witness :
    (∃ out, setSessionMode demoState "s1" (some "high") true = .ok out) ∧
    (∃ out, setSessionMode demoState "s1" (some "high") false = .ok out) ∧
    setSessionMode demoState "nope" none true =
      .error ("Session " ++ "nope" ++ " not found") := by
  refine ⟨?_, ?_, ?_⟩
  · exact (claim8_set_mode_best_effort.2 demoState "s1" (some "high") demoSession
      (by decide)).1 true
  · exact (claim8_set_mode_best_effort.2 demoState "s1" (some "high") demoSession
      (by decide)).1 false
  · exact claim8_set_mode_best_effort.1 demoState "nope" none true (by decide)

/-- C10. A chat event with no payload, no session key, or whose key
matches no session with a pending prompt is ignored: no update is
emitted and the whole translator state is unchanged. -/
theorem claim10_frame_no_match :
    (∀ s : AgentState, handleChatEvent s none = (s, [])) ∧
    (∀ (s : AgentState) (st : Option String) (msg : Option MessageData),
      handleChatEvent s (some ⟨none, st, msg⟩) = (s, [])) ∧
    (∀ (s : AgentState) (sk : String) (st : Option String) (msg : Option MessageData),
      (∀ e ∈ s.pendingPrompts,
        (getSession s.sessions e.1).map (fun r => r.sessionKey) ≠ some sk) →
      handleChatEvent s (some ⟨some sk, st, msg⟩) = (s, [])) := by
  refine ⟨fun s => rfl, fun s st msg => rfl, ?_⟩
  intro s sk st msg hnone
  by_cases hsk : sk = ""
  · subst hsk
    rfl
  · have hfind : findPendingBySessionKey s sk = none := by
      have hn : s.pendingPrompts.find? (fun e =>
          ((getSession s.sessions e.1).map (fun r => r.sessionKey)) == some sk) = none := by
        rw [List.find?_eq_none]
        intro e he hbe
        exact hnone e he (by simpa using hbe)
      rw [findPendingBySessionKey, hn]
      rfl
    exact handleChatEvent_notFound s sk st msg hsk hfind

/-- Witness for C10: an event for an unknown session key leaves the demo
state untouched and emits nothing. -/
theorem claim10_witness :
    handleChatEvent demoState (some ⟨some "nokey", some "delta", none⟩) =
      (demoState, []) := by
  exact claim10_frame_no_match.2.2 demoState "nokey" (some "delta") none (by decide)

end Clawdis
